import Mathlib

/-!
Verification of the resilient transport/retry engine and asynchronous-job
polling machinery of an MCP client for a conversational query service.

The definitions below are a shallow embedding of `src/server/tools.py`:
  * `makeApiRequest` embeds `_make_api_request` (retry loop, HTTP status
    handling, embedded service-error classification);
  * `extractAttachments` embeds `_extract_attachments`;
  * `fetchQueryResult` embeds `_fetch_query_result`;
  * `pollGenie` / `pollLegacy` embed `poll_genie_response` and
    `poll_response_01f0d08866f11370b6735facce14e3ff`;
  * `queryGenie` / `querySpaceLegacy` embed `query_genie` and
    `query_space_01f0d08866f11370b6735facce14e3ff`;
  * `getQueryResult` embeds `get_query_result_01f0d08866f11370b6735facce14e3ff`.

Network traffic is represented by oracles: a function giving, for each
attempt index, the HTTP response (or for tool-level functions, the outcome
of one logical transport call, `Except` an exception message).  JSON leaf
values that no inspected branch looks inside (schema column records, data
cells) are abstracted to `String`.
-/

namespace GenieMcp

/-- Character-list prefix test (helper for the substring test below). -/
def startsWithChars : List Char → List Char → Bool
  | _, [] => true
  | [], _ :: _ => false
  | c :: cs, p :: ps => c = p && startsWithChars cs ps

/-- Character-list contiguous-infix test. -/
def charsHaveInfix : List Char → List Char → Bool
  | [], pat => startsWithChars [] pat
  | c :: cs, pat => startsWithChars (c :: cs) pat || charsHaveInfix cs pat

/-- Python `pat in s` substring test. -/
def hasSubstr (s pat : String) : Bool :=
  charsHaveInfix s.toList pat.toList

/-- Python `str.strip()`: removes leading and trailing whitespace. -/
def pyStrip (s : String) : String :=
  let chars := s.toList.dropWhile Char.isWhitespace
  ⟨(chars.reverse.dropWhile Char.isWhitespace).reverse⟩

/-! ## Module-level constants (tools.py lines 188-227) -/

def MAX_POLL_ATTEMPTS : Nat := 30
def POLL_INTERVAL_SECONDS : Nat := 2
def MAX_RETRIES : Nat := 3
def INITIAL_RETRY_DELAY : Nat := 1

def MESSAGE_STATUSES : List String :=
  ["SUBMITTED", "EXECUTING", "COMPLETED", "FAILED", "CANCELLED", "ERROR"]

def TERMINAL_MESSAGE_STATES : List String :=
  ["COMPLETED", "FAILED", "CANCELLED", "ERROR"]

/-! ## Transport engine (`_make_api_request`, lines 251-421) -/

/-- The three fields of a parsed response body that `_make_api_request`
inspects (`message`, `error_code`, `details`).  The rest of the document is
interpreted only by the caller and modelled separately per endpoint. -/
structure ParsedBody where
  message : Option String
  error_code : Option String
  details : List String
deriving Repr, DecidableEq

/-- The raw body of an HTTP response: absent/falsy text, text that fails
JSON parsing, or a parsed document. -/
inductive BodyText where
  | empty
  | invalid
  | parsed (b : ParsedBody)
deriving Repr, DecidableEq

structure HttpResp where
  status : Nat
  body : BodyText
deriving Repr, DecidableEq

/-- Embedded service error text built at line 370-371:
`API Error [{error_code}]: {error_msg}` plus ` Details: {error_details}`
when the detail list is non-empty (list rendering abstracted). -/
def apiErrorText (code msg : String) (details : List String) : String :=
  "API Error [" ++ code ++ "]: " ++ msg ++
    (if details = [] then "" else " Details: " ++ toString details)

/-- The four substrings that the catch-all handler (lines 405-409) treats
as never-retryable. -/
def keywordTerminal (s : String) : Bool :=
  hasSubstr s "BAD_REQUEST" || hasSubstr s "PERMISSION_DENIED" ||
  hasSubstr s "UNAUTHENTICATED" || hasSubstr s "RESOURCE_NOT_FOUND"

/-- Retryable embedded error codes (line 362). -/
def retryableCodes : List String :=
  ["RESOURCE_EXHAUSTED", "UNAVAILABLE", "INTERNAL_ERROR"]

/-- CPython json decode failure text (content never inspected by the code;
kept as a fixed representative). -/
def jsonDecodeErrorMsg : String := "Expecting value: line 1 column 1 (char 0)"

/-- What a single attempt of `_make_api_request` does with the response it
received, before retry bookkeeping:
`success` = the function returns the parsed body;
`terminal` = an exception that the catch-all handler re-raises at once;
`transient m sleep` = an exception (or direct continue-branch) that is
retried while attempts remain — sleeping the backoff delay iff `sleep` —
and surfaces message `m` once attempts are exhausted. -/
inductive AttemptClass where
  | success (b : ParsedBody)
  | terminal (m : String)
  | transient (m : String) (sleep : Bool)
deriving Repr, DecidableEq

/-- Message of the 400/403/404 branches: the service `message` field when
the body parsed, else the fixed per-status default (lines 297-317). -/
def bodyMessageOr (b : BodyText) (dflt : String) : String :=
  match b with
  | .parsed pb => pb.message.getD dflt
  | _ => dflt

/-- One attempt of `_make_api_request` (lines 286-415), classified.
The 400/403/404 branches re-parse the body; if that parsing fails the
JSONDecodeError escapes to the RequestException handler (line 398) and is
retried with backoff.  For statuses in [400, 600) not handled explicitly,
`raise_for_status` raises HTTPError (line 390-396): the loop advances to
the next attempt, sleeping only when status ≥ 500. -/
def attemptClass (r : HttpResp) : AttemptClass :=
  if r.status = 400 then
    match r.body with
    | .invalid => .transient ("Request failed: " ++ jsonDecodeErrorMsg) true
    | b => .terminal ("BAD_REQUEST: " ++ bodyMessageOr b "Invalid request parameters")
  else if r.status = 401 then
    .terminal "UNAUTHENTICATED: Authentication credentials are missing or invalid"
  else if r.status = 403 then
    match r.body with
    | .invalid => .transient ("Request failed: " ++ jsonDecodeErrorMsg) true
    | b => .terminal ("PERMISSION_DENIED: " ++ bodyMessageOr b "Insufficient permissions")
  else if r.status = 404 then
    match r.body with
    | .invalid => .transient ("Request failed: " ++ jsonDecodeErrorMsg) true
    | b => .terminal ("RESOURCE_NOT_FOUND: " ++ bodyMessageOr b "Resource not found")
  else if r.status = 429 then
    .transient "RESOURCE_EXHAUSTED: Rate limit exceeded. Please try again later" true
  else if r.status = 500 then
    .transient "INTERNAL_ERROR: Internal server error occurred" true
  else if r.status = 503 then
    .transient "UNAVAILABLE: Service temporarily unavailable. Please try again later" true
  else if 400 ≤ r.status ∧ r.status < 600 then
    .transient ("HTTP error: status " ++ toString r.status) (500 ≤ r.status)
  else
    match r.body with
    | .parsed pb =>
      match pb.error_code with
      | some code =>
        let s := apiErrorText code (pb.message.getD "Unknown error") pb.details
        if code ∈ retryableCodes then .transient s true
        else if keywordTerminal s then .terminal s
        else .transient s true
      | none => .success pb
    | _ => .transient ("Invalid JSON response. Status code: " ++ toString r.status) true

/-- Result of a whole `_make_api_request` call. -/
inductive TransportResult where
  | ok (b : ParsedBody)
  | error (m : String)
deriving Repr, DecidableEq

/-- Backoff delay slept after attempt `i` (0-based): `INITIAL_RETRY_DELAY * 2 ** i`. -/
def delayFor (attempt : Nat) : Nat := INITIAL_RETRY_DELAY * 2 ^ attempt

/-- The retry loop of `_make_api_request`: `pending` lists the HTTP
responses the remaining attempts would observe (its length is the number
of attempts left), `attempt` is the 0-based index of the next one.
Returns the overall result, the number of HTTP requests issued, and the
list of backoff sleeps performed.  The `[]` fallback mirrors line 421
(reachable only with a zero retry budget). -/
def transportGo : List HttpResp → Nat → TransportResult × Nat × List Nat
  | [], _ => (.error "Request failed for unknown reason", 0, [])
  | r :: pending, attempt =>
    match attemptClass r with
    | .success b => (.ok b, 1, [])
    | .terminal m => (.error m, 1, [])
    | .transient m sleep =>
      match pending with
      | [] => (.error m, 1, [])
      | r2 :: pending2 =>
        let out := transportGo (r2 :: pending2) (attempt + 1)
        (out.1, out.2.1 + 1, if sleep then delayFor attempt :: out.2.2 else out.2.2)

/-- `_make_api_request`: `retry_count = MAX_RETRIES if retry_on_failure else 1`
(line 284), where `resps i` is the HTTP response attempt `i` would observe. -/
def makeApiRequest (resps : Nat → HttpResp) (retryOnFailure : Bool) :
    TransportResult × Nat × List Nat :=
  transportGo ((List.range (if retryOnFailure then MAX_RETRIES else 1)).map resps) 0

/-- The terminal message the engine produces for one of the four client
error statuses (refinement target for the amended claim C2). -/
def clientErrorMessage (r : HttpResp) : String :=
  if r.status = 400 then "BAD_REQUEST: " ++ bodyMessageOr r.body "Invalid request parameters"
  else if r.status = 401 then "UNAUTHENTICATED: Authentication credentials are missing or invalid"
  else if r.status = 403 then "PERMISSION_DENIED: " ++ bodyMessageOr r.body "Insufficient permissions"
  else "RESOURCE_NOT_FOUND: " ++ bodyMessageOr r.body "Resource not found"

/-- The terminal message surfaced after exhausting retries on one of the
three transient statuses (refinement target for claim C3). -/
def exhaustedMessage (status : Nat) : String :=
  if status = 429 then "RESOURCE_EXHAUSTED: Rate limit exceeded. Please try again later"
  else if status = 500 then "INTERNAL_ERROR: Internal server error occurred"
  else "UNAVAILABLE: Service temporarily unavailable. Please try again later"

/-! ## Transport-layer lemmas -/

theorem attemptClass_client_terminal (r : HttpResp)
    (h : r.status = 400 ∨ r.status = 401 ∨ r.status = 403 ∨ r.status = 404)
    (hb : r.body ≠ .invalid) :
    attemptClass r = .terminal (clientErrorMessage r) := by
  rcases r with ⟨st, b⟩
  rcases h with h | h | h | h <;> subst h <;>
    cases b <;> simp_all [attemptClass, clientErrorMessage]

theorem attemptClass_transient_status (r : HttpResp)
    (h : r.status = 429 ∨ r.status = 500 ∨ r.status = 503) :
    attemptClass r = .transient (exhaustedMessage r.status) true := by
  rcases r with ⟨st, b⟩
  rcases h with h | h | h <;> subst h <;> simp [attemptClass, exhaustedMessage]

theorem attemptClass_success_status (st : Nat) (b : BodyText) (hst : st < 400) :
    attemptClass ⟨st, b⟩ =
      (match b with
       | .parsed pb =>
         match pb.error_code with
         | some code =>
           let t := apiErrorText code (pb.message.getD "Unknown error") pb.details
           if code ∈ retryableCodes then .transient t true
           else if keywordTerminal t then .terminal t
           else .transient t true
         | none => .success pb
       | _ => .transient ("Invalid JSON response. Status code: " ++ toString st) true) := by
  have h1 : st ≠ 400 := by omega
  have h2 : st ≠ 401 := by omega
  have h3 : st ≠ 403 := by omega
  have h4 : st ≠ 404 := by omega
  have h5 : st ≠ 429 := by omega
  have h6 : st ≠ 500 := by omega
  have h7 : st ≠ 503 := by omega
  have h8 : ¬(400 ≤ st ∧ st < 600) := by omega
  simp [attemptClass, h1, h2, h3, h4, h5, h6, h7, h8]

theorem range_three_map (resps : Nat → HttpResp) :
    (List.range 3).map resps = [resps 0, resps 1, resps 2] := rfl

theorem transportGo_three_transient (r0 r1 r2 : HttpResp) (m : String)
    (h0 : attemptClass r0 = .transient m true)
    (h1 : attemptClass r1 = .transient m true)
    (h2 : attemptClass r2 = .transient m true) :
    transportGo [r0, r1, r2] 0 = (.error m, 3, [delayFor 0, delayFor 1]) := by
  simp [transportGo, h0, h1, h2]

/-! ## Claim C2 -/

/-- C2 (amended): for an HTTP response status in {400, 401, 403, 404} whose
body is empty or parseable, the transport engine issues exactly one request,
performs no backoff sleep, and fails with the terminal classification
`clientErrorMessage`: for 400/403/404 this carries the service-reported
`message` verbatim when present and a fixed default otherwise, while for 401
it is always the fixed default regardless of the body. -/
theorem client_error_single_request (resps : Nat → HttpResp)
    (h : (resps 0).status = 400 ∨ (resps 0).status = 401 ∨
         (resps 0).status = 403 ∨ (resps 0).status = 404)
    (hb : (resps 0).body ≠ .invalid) :
    makeApiRequest resps true = (.error (clientErrorMessage (resps 0)), 1, []) := by
  have hc := attemptClass_client_terminal (resps 0) h hb
  show transportGo [resps 0, resps 1, resps 2] 0 = _
  simp [transportGo, hc]

/-- Witness for `client_error_single_request` at a concrete 404 response
carrying a service message. -/
theorem client_error_single_request_witness :
    makeApiRequest (fun _ => ⟨404, .parsed ⟨some "space missing", none, []⟩⟩) true
      = (.error "RESOURCE_NOT_FOUND: space missing", 1, []) := by
  have h := client_error_single_request
    (fun _ => ⟨404, .parsed ⟨some "space missing", none, []⟩⟩)
    (by simp) (by simp)
  simpa [clientErrorMessage, bodyMessageOr] using h

/-- C2 counterexample: on a 401 response whose body does carry a
service-reported message, the engine does NOT propagate that message
verbatim — the failure text is the fixed default and does not contain the
service message. -/
theorem client_error_401_message_counterexample :
    makeApiRequest (fun _ => ⟨401, .parsed ⟨some "token expired for user A", none, []⟩⟩) true
      = (.error "UNAUTHENTICATED: Authentication credentials are missing or invalid", 1, []) ∧
    hasSubstr "UNAUTHENTICATED: Authentication credentials are missing or invalid"
      "token expired for user A" = false := by
  exact ⟨by decide, by decide⟩

/-! ## Claim C3 -/

/-- C3: when every attempt observes a status in {429, 500, 503} (retries
enabled), the engine issues exactly `MAX_RETRIES` = 3 requests, sleeping
`INITIAL_RETRY_DELAY * 2 ** i` between attempts, and then fails with the
matching terminal code (RESOURCE_EXHAUSTED / INTERNAL_ERROR / UNAVAILABLE). -/
theorem transient_status_retry_schedule (resps : Nat → HttpResp) (s : Nat)
    (hs : s = 429 ∨ s = 500 ∨ s = 503)
    (hr : ∀ i, i < MAX_RETRIES → (resps i).status = s) :
    makeApiRequest resps true =
      (.error (exhaustedMessage s), MAX_RETRIES,
        [INITIAL_RETRY_DELAY * 2 ^ 0, INITIAL_RETRY_DELAY * 2 ^ 1]) := by
  have hc : ∀ i, i < 3 → attemptClass (resps i) = .transient (exhaustedMessage s) true := by
    intro i hi
    have hst := hr i hi
    have h := attemptClass_transient_status (resps i) (by rw [hst]; exact hs)
    rw [hst] at h
    exact h
  have h3 := transportGo_three_transient (resps 0) (resps 1) (resps 2) (exhaustedMessage s)
    (hc 0 (by norm_num)) (hc 1 (by norm_num)) (hc 2 (by norm_num))
  show transportGo [resps 0, resps 1, resps 2] 0 = _
  rw [h3]
  simp [MAX_RETRIES, delayFor, INITIAL_RETRY_DELAY]

/-- Witness for `transient_status_retry_schedule` at constant 503 responses. -/
theorem transient_status_retry_schedule_witness :
    makeApiRequest (fun _ => ⟨503, .empty⟩) true
      = (.error "UNAVAILABLE: Service temporarily unavailable. Please try again later", 3, [1, 2]) := by
  have h := transient_status_retry_schedule (fun _ => ⟨503, .empty⟩) 503
    (by simp) (by intro i _; rfl)
  simpa [exhaustedMessage, MAX_RETRIES, INITIAL_RETRY_DELAY] using h

/-! ## Claim C5 -/

/-- C5 (amended): when a successfully parsed body of a success-status
response carries an embedded `error_code`, the engine retries under the
backoff schedule while attempts remain whenever the code is in
{RESOURCE_EXHAUSTED, UNAVAILABLE, INTERNAL_ERROR} — but ALSO whenever the
constructed failure text (embedded code, message and detail list) lacks all
four of the substrings BAD_REQUEST / PERMISSION_DENIED / UNAUTHENTICATED /
RESOURCE_NOT_FOUND.  Only an embedded failure whose text contains one of
those four substrings fails fast without a second request; every other
unknown or unmapped code is retried and surfaces its text after
exhaustion. -/
theorem embedded_error_code_retry_classification (resps : Nat → HttpResp)
    (st : Nat) (pb : ParsedBody) (code : String)
    (hst : st < 400) (hcode : pb.error_code = some code)
    (hr : ∀ i, i < MAX_RETRIES → resps i = ⟨st, .parsed pb⟩) :
    (code ∈ retryableCodes ∨
       keywordTerminal (apiErrorText code (pb.message.getD "Unknown error") pb.details) = false →
      makeApiRequest resps true =
        (.error (apiErrorText code (pb.message.getD "Unknown error") pb.details),
          MAX_RETRIES, [delayFor 0, delayFor 1])) ∧
    (code ∉ retryableCodes ∧
       keywordTerminal (apiErrorText code (pb.message.getD "Unknown error") pb.details) = true →
      makeApiRequest resps true =
        (.error (apiErrorText code (pb.message.getD "Unknown error") pb.details), 1, [])) := by
  have e0 := hr 0 (by decide)
  have e1 := hr 1 (by decide)
  have e2 := hr 2 (by decide)
  have hclass : attemptClass ⟨st, .parsed pb⟩ =
      (if code ∈ retryableCodes then
        .transient (apiErrorText code (pb.message.getD "Unknown error") pb.details) true
       else if keywordTerminal (apiErrorText code (pb.message.getD "Unknown error") pb.details) then
        .terminal (apiErrorText code (pb.message.getD "Unknown error") pb.details)
       else
        .transient (apiErrorText code (pb.message.getD "Unknown error") pb.details) true) := by
    rw [attemptClass_success_status st (.parsed pb) hst]
    simp only [hcode]
  constructor
  · intro hcase
    have htr : attemptClass ⟨st, .parsed pb⟩ =
        .transient (apiErrorText code (pb.message.getD "Unknown error") pb.details) true := by
      rw [hclass]
      by_cases hmem : code ∈ retryableCodes
      · rw [if_pos hmem]
      · rcases hcase with hc | hc
        · exact absurd hc hmem
        · rw [if_neg hmem, hc]
          simp
    show transportGo [resps 0, resps 1, resps 2] 0 = _
    rw [e0, e1, e2, transportGo_three_transient _ _ _ _ htr htr htr]
    simp [MAX_RETRIES]
  · intro hcase
    have hterm : attemptClass ⟨st, .parsed pb⟩ =
        .terminal (apiErrorText code (pb.message.getD "Unknown error") pb.details) := by
      rw [hclass, if_neg hcase.1, if_pos hcase.2]
    show transportGo [resps 0, resps 1, resps 2] 0 = _
    rw [e0, e1, e2]
    simp [transportGo, hterm]

/-- Witness for `embedded_error_code_retry_classification`: an embedded
retryable code UNAVAILABLE is retried three times and surfaced. -/
theorem embedded_error_code_retry_classification_witness :
    makeApiRequest (fun _ => ⟨200, .parsed ⟨some "backend down", some "UNAVAILABLE", []⟩⟩) true
      = (.error "API Error [UNAVAILABLE]: backend down", 3, [1, 2]) := by
  have h := (embedded_error_code_retry_classification
    (fun _ => ⟨200, .parsed ⟨some "backend down", some "UNAVAILABLE", []⟩⟩)
    200 ⟨some "backend down", some "UNAVAILABLE", []⟩ "UNAVAILABLE"
    (by norm_num) rfl (by intro i _; rfl)).1 (by left; decide)
  simpa [apiErrorText, MAX_RETRIES, delayFor, INITIAL_RETRY_DELAY] using h

/-- C5 counterexample: an embedded code outside the retryable set and
outside the mapped terminal keywords (here SOME_NEW_CODE) is NOT terminal:
the engine issues three requests with backoff sleeps [1, 2] instead of
failing fast on the first attempt. -/
theorem unknown_embedded_code_retried_counterexample :
    makeApiRequest (fun _ => ⟨200, .parsed ⟨some "boom", some "SOME_NEW_CODE", []⟩⟩) true
      = (.error "API Error [SOME_NEW_CODE]: boom", 3, [1, 2]) ∧
    "SOME_NEW_CODE" ∉ retryableCodes := by
  exact ⟨by decide, by decide⟩

/-! ## Claim C6 -/

/-- C6 (amended): on a successful HTTP status whose body cannot be parsed
(or is empty), the failure IS retried under the backoff schedule — three
requests with sleeps [1, 2] — and after exhaustion surfaces the message
`Invalid JSON response. Status code: N`; no INVALID_RESPONSE classification
is produced by the transport engine. -/
theorem invalid_json_retry_behavior (resps : Nat → HttpResp) (st : Nat) (hst : st < 400)
    (hr : ∀ i, i < MAX_RETRIES →
      (resps i).status = st ∧ ((resps i).body = .empty ∨ (resps i).body = .invalid)) :
    makeApiRequest resps true =
      (.error ("Invalid JSON response. Status code: " ++ toString st),
        MAX_RETRIES, [delayFor 0, delayFor 1]) := by
  have hc : ∀ i, i < 3 →
      attemptClass (resps i) =
        .transient ("Invalid JSON response. Status code: " ++ toString st) true := by
    intro i hi
    obtain ⟨hs, hb⟩ := hr i hi
    have hlt : (resps i).status < 400 := by rw [hs]; exact hst
    have h := attemptClass_success_status (resps i).status (resps i).body hlt
    have heta : attemptClass (resps i) =
        attemptClass ⟨(resps i).status, (resps i).body⟩ := rfl
    rw [heta, h, hs]
    rcases hb with hb | hb <;> rw [hb]
  have h3 := transportGo_three_transient (resps 0) (resps 1) (resps 2) _
    (hc 0 (by norm_num)) (hc 1 (by norm_num)) (hc 2 (by norm_num))
  show transportGo [resps 0, resps 1, resps 2] 0 = _
  rw [h3]
  simp [MAX_RETRIES]

/-- Witness for `invalid_json_retry_behavior` at a 200 response with an
empty body. -/
theorem invalid_json_retry_behavior_witness :
    makeApiRequest (fun _ => ⟨200, .empty⟩) true
      = (.error "Invalid JSON response. Status code: 200", 3, [1, 2]) := by
  have h := invalid_json_retry_behavior (fun _ => ⟨200, .empty⟩) 200
    (by norm_num) (by intro i _; exact ⟨rfl, Or.inl rfl⟩)
  simpa [MAX_RETRIES, delayFor, INITIAL_RETRY_DELAY] using h

/-- C6 counterexample: a 200 response with an unparseable body is retried
(three requests, sleeps [1, 2]) rather than failing once, and the surfaced
failure text is `Invalid JSON response. Status code: 200`, which does not
carry the INVALID_RESPONSE classification. -/
theorem invalid_json_retried_counterexample :
    makeApiRequest (fun _ => ⟨200, .invalid⟩) true
      = (.error "Invalid JSON response. Status code: 200", 3, [1, 2]) ∧
    hasSubstr "Invalid JSON response. Status code: 200" "INVALID_RESPONSE" = false := by
  exact ⟨by decide, by decide⟩

/-! ## Result extractor (`_extract_attachments`, lines 424-519)

Wire-format model of one job-record attachment.  Each of the four typed
sub-objects is guarded in the source by `isinstance(..., dict)`; `Sub`
distinguishes an absent key, a present key whose value fails that guard,
and a well-typed sub-object. -/

inductive Sub (α : Type) where
  | absent
  | notDict
  | dict (a : α)
deriving Repr, DecidableEq

/-- `attachment["text"]`: its `content` field (string leaves only;
`.get("content", "")` defaults to the empty string). -/
structure TextPart where
  content : Option String
deriving Repr, DecidableEq

/-- `query_result_metadata` sub-object of a query attachment. -/
structure QueryMeta where
  row_count : Option Nat
  truncated : Option Bool
deriving Repr, DecidableEq

/-- `attachment["query"]`. -/
structure QueryPart where
  query : Option String
  description : Option String
  statement_id : Option String
  query_result_metadata : Option QueryMeta
deriving Repr, DecidableEq

/-- One element of a `suggested_questions.questions` list: a string or a
value of another JSON type (filtered out by the `isinstance(q, str)` test). -/
inductive QEntry where
  | str (s : String)
  | nonStr
deriving Repr, DecidableEq

/-- `attachment["suggested_questions"]`: its `questions` field.  `none`
models a present non-list value (skipped); an absent key defaults to the
empty list and is modelled as `some []`. -/
structure SuggestedPart where
  questions : Option (List QEntry)
deriving Repr, DecidableEq

/-- `attachment["error"]`. -/
structure ErrorPart where
  message : Option String
  error_code : Option String
deriving Repr, DecidableEq

structure Attachment where
  attachment_id : Option String
  text : Sub TextPart
  query : Sub QueryPart
  suggested_questions : Sub SuggestedPart
  error : Sub ErrorPart
deriving Repr, DecidableEq

/-- One element of the job record's `attachments` list (non-dict elements
are skipped by the guard at lines 455-457). -/
inductive AttElem where
  | notDict
  | att (a : Attachment)
deriving Repr, DecidableEq

/-- The `attachments` field of a job record: `notList` models a present
non-list value (line 451); an absent key defaults to `[]` and is modelled
as `list []`. -/
inductive AttachmentsField where
  | notList
  | list (l : List AttElem)
deriving Repr, DecidableEq

/-- Entries of the normalized bundle. -/
structure TextResponse where
  content : String
  attachment_id : String
deriving Repr, DecidableEq

structure QueryInfo where
  sql : String
  description : String
  statement_id : String
  attachment_id : String
  row_count : Nat
  truncated : Bool
deriving Repr, DecidableEq

structure ErrorEntry where
  message : String
  error_code : String
  attachment_id : String
deriving Repr, DecidableEq

structure AttachmentBundle where
  text_responses : List TextResponse
  queries : List QueryInfo
  suggested_questions : List String
  errors : List ErrorEntry
deriving Repr, DecidableEq

/-- Text contribution of one attachment (lines 461-468): included iff the
content string is truthy, i.e. non-empty — no whitespace trimming. -/
def textOf (a : Attachment) : List TextResponse :=
  match a.text with
  | .dict t =>
    let content := t.content.getD ""
    if content ≠ "" then [⟨content, a.attachment_id.getD ""⟩] else []
  | _ => []

/-- Query contribution of one attachment (lines 470-491): included iff the
sql text is non-empty; metadata defaults to 0/false. -/
def queryOf (a : Attachment) : List QueryInfo :=
  match a.query with
  | .dict qp =>
    let sql := qp.query.getD ""
    let rc := match qp.query_result_metadata with
      | some md => md.row_count.getD 0
      | none => 0
    let tr := match qp.query_result_metadata with
      | some md => md.truncated.getD false
      | none => false
    if sql ≠ "" then
      [⟨sql, qp.description.getD "", qp.statement_id.getD "", a.attachment_id.getD "", rc, tr⟩]
    else []
  | _ => []

/-- Suggested-question contribution (lines 493-499): keeps string entries
that are non-blank after trimming. -/
def suggestedOf (a : Attachment) : List String :=
  match a.suggested_questions with
  | .dict sp =>
    match sp.questions with
    | some items =>
      items.filterMap fun e =>
        match e with
        | .str s => if pyStrip s ≠ "" then some s else none
        | .nonStr => none
    | none => []
  | _ => []

/-- Error contribution (lines 501-508). -/
def errorOf (a : Attachment) : List ErrorEntry :=
  match a.error with
  | .dict ep => [⟨ep.message.getD "Unknown error", ep.error_code.getD "UNKNOWN", a.attachment_id.getD ""⟩]
  | _ => []

/-- Single traversal of the attachment list, appending each element's
independent contributions in order. -/
def extractLists : List AttElem →
    List TextResponse × List QueryInfo × List String × List ErrorEntry
  | [] => ([], [], [], [])
  | e :: rest =>
    let acc := extractLists rest
    match e with
    | .notDict => acc
    | .att a =>
      (textOf a ++ acc.1, queryOf a ++ acc.2.1, suggestedOf a ++ acc.2.2.1,
       errorOf a ++ acc.2.2.2)

/-- Order-preserving first-occurrence deduplication (lines 510-517). -/
def dedupKeepFirst (seen : List String) : List String → List String
  | [] => []
  | q :: rest =>
    if q ∈ seen then dedupKeepFirst seen rest
    else q :: dedupKeepFirst (q :: seen) rest

/-- The message document returned by the job-status endpoint, as far as
the poll loops inspect it. -/
structure MessageDoc where
  status : Option String
  content : Option String
  attachments : AttachmentsField
deriving Repr, DecidableEq

/-- `_extract_attachments`: a non-list `attachments` value yields the empty
bundle; otherwise one traversal plus final deduplication of the suggested
questions. -/
def extractAttachments (m : MessageDoc) : AttachmentBundle :=
  match m.attachments with
  | .notList => ⟨[], [], [], []⟩
  | .list l =>
    let acc := extractLists l
    ⟨acc.1, acc.2.1, dedupKeepFirst [] acc.2.2.1, acc.2.2.2⟩

/-! ## Claim C8 -/

theorem extractLists_text_nonempty (l : List AttElem) (t : TextResponse)
    (h : t ∈ (extractLists l).1) : t.content ≠ "" := by
  induction l with
  | nil => simp [extractLists] at h
  | cons e rest ih =>
    cases e with
    | notDict =>
      simp only [extractLists] at h
      exact ih h
    | att a =>
      simp only [extractLists, List.mem_append] at h
      rcases h with h | h
      · unfold textOf at h
        rcases hta : a.text with _ | _ | tp <;> rw [hta] at h <;> simp at h
        obtain ⟨hne, ht⟩ := h
        rw [ht]
        exact hne
      · exact ih h

/-- C8 (amended): a text attachment contributes to `textResponses` only if
its content string is non-empty — the truthiness test at line 464 performs
NO whitespace trimming, so whitespace-only content is included. -/
theorem text_response_nonempty (m : MessageDoc) (t : TextResponse)
    (h : t ∈ (extractAttachments m).text_responses) : t.content ≠ "" := by
  unfold extractAttachments at h
  rcases hm : m.attachments with _ | l <;> rw [hm] at h
  · simp at h
  · exact extractLists_text_nonempty l t h

/-- Witness for `text_response_nonempty` at a one-attachment record. -/
theorem text_response_nonempty_witness :
    ("hello" : String) ≠ "" :=
  text_response_nonempty
    ⟨some "COMPLETED", none,
      .list [.att ⟨some "attachment01", .dict ⟨some "hello"⟩, .absent, .absent, .absent⟩]⟩
    ⟨"hello", "attachment01"⟩ (by decide)

/-- C8 counterexample: a text attachment whose content is the single space
`" "` — empty after whitespace trimming — IS included in `textResponses`,
refuting the trimmed-non-emptiness condition. -/
theorem whitespace_text_included_counterexample :
    (extractAttachments
      ⟨some "COMPLETED", none,
        .list [.att ⟨some "attachment01", .dict ⟨some " "⟩, .absent, .absent, .absent⟩]⟩).text_responses
      = [⟨" ", "attachment01"⟩] ∧
    pyStrip " " = "" := by
  exact ⟨by decide, by decide⟩

/-! ## Chunked result fetcher (`_fetch_query_result`, lines 522-590)

Wire model of the query-result endpoint document.  Schema column records
and data cells are opaque to every inspected branch and are abstracted to
`String`. -/

structure Manifest where
  schema_columns : Option (List String)
  total_row_count : Option Nat
  total_byte_count : Option Nat
  truncated : Option Bool
  total_chunk_count : Option Nat
deriving Repr, DecidableEq

structure ResultData where
  data_array : Option (List (List String))
  chunk_index : Option Nat
  row_offset : Option Nat
  row_count : Option Nat
deriving Repr, DecidableEq

structure StmtError where
  message : Option String
  error_code : Option String
deriving Repr, DecidableEq

structure StmtResp where
  statement_id : Option String
  state : Option String
  error : Option StmtError
  manifest : Option Manifest
  result : Option ResultData
deriving Repr, DecidableEq

/-- Parsed query-result endpoint response; `statement_response = none`
models an absent or falsy `statement_response` value. -/
structure QRDoc where
  statement_response : Option StmtResp
deriving Repr, DecidableEq

structure ChunkInfo where
  total_chunks : Nat
  current_chunk : Nat
  row_offset : Nat
deriving Repr, DecidableEq

/-- The dictionary `_fetch_query_result` returns: optional keys model keys
that one construction site includes and another omits (`sql` and
`description` are also written by the caller at lines 1765-1766). -/
structure FetchedResult where
  statement_id : String
  status : String
  sql : Option String := none
  description : Option String := none
  schema_columns : Option (List String) := none
  data : Option (List (List String)) := none
  row_count : Option Nat := none
  truncated : Option Bool := none
  chunk_info : Option ChunkInfo := none
  errorText : Option String := none
deriving Repr, DecidableEq

/-- `_fetch_query_result` given the outcome of its one transport call: any
exception is swallowed and yields `none` (lines 589-590); an absent
statement response yields `none`; state SUCCEEDED builds the full record
with `chunk_info` only when `total_chunk_count > 1`; any other state yields
a reduced record with a status note. -/
def fetchQueryResult (resp : Except String QRDoc) : Option FetchedResult :=
  match resp with
  | .error _ => none
  | .ok doc =>
    match doc.statement_response with
    | none => none
    | some sr =>
      let st := sr.state.getD "UNKNOWN"
      if st = "SUCCEEDED" then
        let manifest := sr.manifest.getD ⟨none, none, none, none, none⟩
        let resultData := sr.result.getD ⟨none, none, none, none⟩
        some
          { statement_id := sr.statement_id.getD ""
            status := st
            sql := some ""
            schema_columns := some (manifest.schema_columns.getD [])
            data := some (resultData.data_array.getD [])
            row_count := some (manifest.total_row_count.getD 0)
            truncated := some (manifest.truncated.getD false)
            chunk_info :=
              if manifest.total_chunk_count.getD 1 > 1 then
                some ⟨manifest.total_chunk_count.getD 1, resultData.chunk_index.getD 0,
                      resultData.row_offset.getD 0⟩
              else none }
      else
        some
          { statement_id := sr.statement_id.getD ""
            status := st
            errorText := some ("Query execution status: " ++ st) }

/-- Caller-side mutation at lines 1765-1766: overwrite `sql` and add
`description` from the extracted query entry. -/
def attachSqlDescription (q : QueryInfo) (r : FetchedResult) : FetchedResult :=
  { r with sql := some q.sql, description := some q.description }

/-- The secondary-fetch loop of `poll_genie_response` (lines 1752-1768):
iterate the extracted queries, skipping empty attachment ids, invoking the
fetcher per id, stopping at the FIRST fetch that returns a result (a
returned dictionary is always non-empty, hence truthy).  Returns the ids
actually fetched, in order, and the attached result if any. -/
def fetchResultsLoop (qrOracle : String → Except String QRDoc) :
    List QueryInfo → List String × Option FetchedResult
  | [] => ([], none)
  | q :: rest =>
    if q.attachment_id = "" then fetchResultsLoop qrOracle rest
    else
      match fetchQueryResult (qrOracle q.attachment_id) with
      | some r => ([q.attachment_id], some (attachSqlDescription q r))
      | none =>
        let out := fetchResultsLoop qrOracle rest
        (q.attachment_id :: out.1, out.2)

/-! ## Poll loops (lines 913-936 and 1693-1708) -/

/-- The shared poll-loop shape: `fuel` iterations remain, `attempts` polls
already made.  A transport exception aborts the loop carrying the attempt
count.  `rename` enables the legacy loop's relabelling of unrecognized
non-terminal statuses to `UNKNOWN_<raw>` (lines 930-932), absent from the
generic loop. -/
def pollLoopGo (oracle : Nat → Except String MessageDoc) (rename : Bool) :
    Nat → Nat → String → MessageDoc → Except (String × Nat) (Nat × String × MessageDoc)
  | 0, attempts, st, doc => .ok (attempts, st, doc)
  | fuel + 1, attempts, _, _ =>
    match oracle attempts with
    | .error e => .error (e, attempts + 1)
    | .ok doc =>
      let st := doc.status.getD "UNKNOWN"
      if st ∈ TERMINAL_MESSAGE_STATES then .ok (attempts + 1, st, doc)
      else
        let st2 :=
          if rename = true ∧ st ∉ MESSAGE_STATUSES ∧ st ∉ TERMINAL_MESSAGE_STATES then
            "UNKNOWN_" ++ st
          else st
        pollLoopGo oracle rename fuel (attempts + 1) st2 doc

/-- Attempt budget of the generic path (lines 1679-1680): the wait bound is
first clamped into [1, 300], then divided by the fixed 2-second interval. -/
def genericBudget (w : Int) : Nat :=
  max 1 ((max 1 (min 300 w)).toNat / POLL_INTERVAL_SECONDS)

/-- Attempt budget of the legacy path (lines 902-904): capped by
`MAX_POLL_ATTEMPTS`, then floored to 1. -/
def legacyBudget (w : Int) : Nat :=
  max 1 (min (w.toNat / POLL_INTERVAL_SECONDS) MAX_POLL_ATTEMPTS)

/-! ## Poll tools -/

/-- Caller-facing result of a poll operation (identifier-echo fields
omitted; the legacy tool's per-query `query_results` records carry no
top-level error code and are not modelled). -/
structure PollPayload where
  error : Option String := none
  message : Option String := none
  status : Option String := none
  poll_attempts : Option Nat := none
  attachments : Option AttachmentBundle := none
  query_result : Option FetchedResult := none
deriving Repr, DecidableEq

/-- Network accounting for one poll call: status-endpoint requests made and
attachment ids for which a query-result fetch was issued. -/
structure PollTrace where
  statusCalls : Nat
  fetchIds : List String
deriving Repr, DecidableEq

/-- Input validation of `poll_genie_response` (lines 1653-1676). -/
def pollGenieValidate (s c m : String) : Option String :=
  if s = "" ∨ pyStrip s = "" then some "space_id is required"
  else if c = "" ∨ m = "" then some "conversation_id and message_id are required"
  else if c.length < 10 then some "Invalid conversation_id format"
  else if m.length < 10 then some "Invalid message_id format"
  else none

/-- Input validation of the legacy poll tool (lines 864-895). -/
def pollLegacyValidate (c m : String) (w : Int) : Option String :=
  if c = "" ∨ m = "" then some "conversation_id and message_id are required"
  else if c.length < 10 then some "Invalid conversation_id format. Must be a valid UUID string."
  else if m.length < 10 then some "Invalid message_id format. Must be a valid UUID string."
  else if w < 1 then some "max_wait_seconds must be at least 1"
  else if w > 600 then some "max_wait_seconds cannot exceed 600 (10 minutes)"
  else none

/-- Collection of raw `error` sub-values from the attachment list in the
FAILED/ERROR terminal branches (`if "error" in attachment` over the raw
list).  Reaching a non-dict element raises (the membership test is a
TypeError on non-container values; container oddities are abstracted to
the raising case), modelled as `none`. -/
def collectRawErrors : List AttElem → Option (List (Sub ErrorPart))
  | [] => some []
  | .notDict :: _ => none
  | .att a :: rest =>
    match collectRawErrors rest with
    | none => none
    | some l =>
      match a.error with
      | .absent => some l
      | e => some (e :: l)

/-- Fixed representative of a Python TypeError message from iterating or
probing a non-container (its content is never inspected by the handlers). -/
def typeErrorText : String := "argument of type NoneType is not iterable"

/-- Catch-all dispatch of `poll_genie_response` (lines 1772-1790). -/
def pollGenieExceptPayload (e : String) : PollPayload :=
  if hasSubstr e "RESOURCE_NOT_FOUND" then
    { error := some "RESOURCE_NOT_FOUND"
      message := some "Conversation or message not found. Verify the IDs are correct." }
  else
    { error := some "POLL_FAILED", message := some e }

/-- `poll_genie_response` (lines 1592-1790).  `statusOracle i` is the
parsed job record the i-th status call would return (or the exception the
transport call would raise); `qrOracle` plays the same role for the
query-result endpoint, keyed by attachment id.  Credential acquisition is
an external collaborator modelled as always succeeding. -/
def pollGenie (s c m : String) (w : Int) (fetch : Bool)
    (statusOracle : Nat → Except String MessageDoc)
    (qrOracle : String → Except String QRDoc) : PollPayload × PollTrace :=
  match pollGenieValidate s c m with
  | some msg => ({ error := some "INVALID_INPUT", message := some msg }, ⟨0, []⟩)
  | none =>
    let wc : Int := max 1 (min 300 w)
    let budget : Nat := genericBudget w
    match pollLoopGo statusOracle false budget 0 "SUBMITTED" ⟨none, none, .list []⟩ with
    | .error (e, calls) => (pollGenieExceptPayload e, ⟨calls, []⟩)
    | .ok (attempts, st, doc) =>
      if st = "FAILED" then
        match doc.attachments with
        | .notList => (pollGenieExceptPayload typeErrorText, ⟨attempts, []⟩)
        | .list l =>
          match collectRawErrors l with
          | none => (pollGenieExceptPayload typeErrorText, ⟨attempts, []⟩)
          | some _ =>
            ({ error := some "MESSAGE_FAILED"
               message := some "The Genie message failed to process"
               status := some st, poll_attempts := some attempts }, ⟨attempts, []⟩)
      else if st = "CANCELLED" then
        ({ error := some "MESSAGE_CANCELLED"
           message := some "The Genie message was cancelled"
           status := some st, poll_attempts := some attempts }, ⟨attempts, []⟩)
      else if st = "ERROR" then
        ({ error := some "MESSAGE_ERROR"
           message := some "An error occurred during message processing"
           status := some st, poll_attempts := some attempts }, ⟨attempts, []⟩)
      else if st ∉ TERMINAL_MESSAGE_STATES then
        ({ error := some "TIMEOUT"
           message := some ("Message did not complete within " ++ toString wc ++
             " seconds. Current status: " ++ st)
           status := some st, poll_attempts := some attempts }, ⟨attempts, []⟩)
      else
        let bundle := extractAttachments doc
        if fetch = true ∧ bundle.queries ≠ [] then
          let fetched := fetchResultsLoop qrOracle bundle.queries
          ({ status := some st, attachments := some bundle
             query_result := fetched.2, poll_attempts := some attempts },
           ⟨attempts, fetched.1⟩)
        else
          ({ status := some st, attachments := some bundle
             poll_attempts := some attempts }, ⟨attempts, []⟩)

/-- Message built in the legacy FAILED/ERROR branches (lines 946-948 and
974-976): the base text plus the first raw detail's `message` when a
detail exists.  A non-dict first detail raises (AttributeError on `.get`),
modelled as `none`. -/
def legacyDetailMessage (base : String) : List (Sub ErrorPart) → Option String
  | [] => some base
  | .dict ep :: _ => some (base ++ ": " ++ ep.message.getD "Unknown error")
  | _ :: _ => none

/-- Ids the legacy fetch loop (lines 1006-1131) issues query-result
requests for: every extracted query with a non-empty attachment id, in
order (per-item failures do not stop the loop). -/
def legacyFetchIds (qs : List QueryInfo) : List String :=
  (qs.filter fun q => q.attachment_id ≠ "").map fun q => q.attachment_id

/-- The legacy poll tool `poll_response_...` (lines 806-1141).  Its
catch-all handler (lines 1135-1141) always reports POLL_FAILED.  The
per-item records its fetch loop builds carry no top-level error code, so
only the ids it fetches are traced and the query-result oracle is unused
here. -/
def pollLegacy (c m : String) (w : Int) (fetch : Bool)
    (statusOracle : Nat → Except String MessageDoc)
    (_qrOracle : String → Except String QRDoc) : PollPayload × PollTrace :=
  match pollLegacyValidate c m w with
  | some msg => ({ error := some "INVALID_INPUT", message := some msg }, ⟨0, []⟩)
  | none =>
    let budget : Nat := legacyBudget w
    match pollLoopGo statusOracle true budget 0 "SUBMITTED" ⟨none, none, .list []⟩ with
    | .error (e, calls) =>
      ({ error := some "POLL_FAILED", message := some e }, ⟨calls, []⟩)
    | .ok (attempts, st, doc) =>
      if st = "FAILED" then
        match doc.attachments with
        | .notList =>
          ({ error := some "POLL_FAILED", message := some typeErrorText }, ⟨attempts, []⟩)
        | .list l =>
          match collectRawErrors l with
          | none =>
            ({ error := some "POLL_FAILED", message := some typeErrorText }, ⟨attempts, []⟩)
          | some details =>
            match legacyDetailMessage "The Genie message failed to process" details with
            | none =>
              ({ error := some "POLL_FAILED", message := some typeErrorText }, ⟨attempts, []⟩)
            | some msg =>
              ({ error := some "MESSAGE_FAILED", message := some msg
                 status := some st, poll_attempts := some attempts }, ⟨attempts, []⟩)
      else if st = "CANCELLED" then
        ({ error := some "MESSAGE_CANCELLED"
           message := some "The Genie message was cancelled"
           status := some st, poll_attempts := some attempts }, ⟨attempts, []⟩)
      else if st = "ERROR" then
        match doc.attachments with
        | .notList =>
          ({ error := some "POLL_FAILED", message := some typeErrorText }, ⟨attempts, []⟩)
        | .list l =>
          match collectRawErrors l with
          | none =>
            ({ error := some "POLL_FAILED", message := some typeErrorText }, ⟨attempts, []⟩)
          | some details =>
            match legacyDetailMessage "An error occurred during message processing" details with
            | none =>
              ({ error := some "POLL_FAILED", message := some typeErrorText }, ⟨attempts, []⟩)
            | some msg =>
              ({ error := some "MESSAGE_ERROR", message := some msg
                 status := some st, poll_attempts := some attempts }, ⟨attempts, []⟩)
      else if st ∉ TERMINAL_MESSAGE_STATES then
        ({ error := some "TIMEOUT"
           message := some ("Message did not complete within " ++ toString w ++
             " seconds. Current status: " ++ st)
           status := some st, poll_attempts := some attempts }, ⟨attempts, []⟩)
      else
        let bundle := extractAttachments doc
        ({ status := some st, attachments := some bundle
           poll_attempts := some attempts },
         ⟨attempts, if fetch = true ∧ bundle.queries ≠ [] then legacyFetchIds bundle.queries else []⟩)

/-! ## Submit tools (`query_genie`, lines 1460-1589, and
`query_space_...`, lines 684-804) -/

/-- The `message` sub-object of a start-conversation response. -/
structure SubmitMessage where
  conversation_id : Option String
  status : Option String
deriving Repr, DecidableEq

/-- Parsed start-conversation response document. -/
structure SubmitDoc where
  message : Option SubmitMessage
  message_id : Option String
deriving Repr, DecidableEq

structure SubmitPayload where
  error : Option String := none
  message : Option String := none
  conversation_id : Option String := none
  message_id : Option String := none
  status : Option String := none
deriving Repr, DecidableEq

/-- Python truthiness of the optional `conversation_id` argument: `None`
and the empty string both skip the format check and payload field. -/
def cidTruthy (cid : Option String) : Bool :=
  match cid with
  | some c => c ≠ ""
  | none => false

/-- Input validation of `query_genie` (lines 1504-1529). -/
def queryGenieValidate (s q : String) (cid : Option String) : Option String :=
  if s = "" ∨ pyStrip s = "" then some "space_id is required"
  else if q = "" ∨ pyStrip q = "" then some "query is required"
  else if (pyStrip q).length > 10000 then some "Query exceeds maximum length of 10,000 characters"
  else if cidTruthy cid = true ∧ (cid.getD "").length < 10 then
    some "Invalid conversation_id format. Must be a valid UUID string."
  else none

/-- Input validation of the legacy submit tool (lines 738-758). -/
def querySpaceLegacyValidate (q : String) (cid : Option String) : Option String :=
  if q = "" ∨ pyStrip q = "" then some "Query cannot be empty"
  else if (pyStrip q).length > 10000 then some "Query exceeds maximum length of 10,000 characters"
  else if cidTruthy cid = true ∧ (cid.getD "").length < 10 then
    some "Invalid conversation_id format. Must be a valid UUID string."
  else none

/-- Extraction step shared by both submit tools (lines 1548-1552 /
778-782): conversation id and status from the `message` sub-object
(defaulting to the empty dict), message id from the top level. -/
def submitExtract (doc : SubmitDoc) : String × String × String :=
  let msg := doc.message.getD ⟨none, none⟩
  (msg.conversation_id.getD "", doc.message_id.getD "", msg.status.getD "UNKNOWN")

/-- `query_genie`: validation, one transport call, handle extraction, and
the catch-all dispatch of lines 1568-1589. -/
def queryGenie (s q : String) (cid : Option String)
    (oracle : Except String SubmitDoc) : SubmitPayload :=
  match queryGenieValidate s q cid with
  | some msg => { error := some "INVALID_INPUT", message := some msg }
  | none =>
    match oracle with
    | .error e =>
      if hasSubstr e "RESOURCE_NOT_FOUND" then
        { error := some "SPACE_NOT_FOUND"
          message := some ("Genie space not found. Use list_genie_spaces to find valid space IDs.") }
      else if hasSubstr e "PERMISSION_DENIED" then
        { error := some "PERMISSION_DENIED"
          message := some "Insufficient permissions to query space" }
      else
        { error := some "QUERY_FAILED", message := some e }
    | .ok doc =>
      let ext := submitExtract doc
      if ext.1 = "" ∨ ext.2.1 = "" then
        { error := some "INVALID_RESPONSE"
          message := some "Failed to extract conversation_id or message_id from response" }
      else
        { conversation_id := some ext.1, message_id := some ext.2.1, status := some ext.2.2 }

/-- The legacy submit tool `query_space_...`: identical extraction; its
catch-all handler (lines 798-804) always reports QUERY_FAILED. -/
def querySpaceLegacy (q : String) (cid : Option String)
    (oracle : Except String SubmitDoc) : SubmitPayload :=
  match querySpaceLegacyValidate q cid with
  | some msg => { error := some "INVALID_INPUT", message := some msg }
  | none =>
    match oracle with
    | .error e => { error := some "QUERY_FAILED", message := some e }
    | .ok doc =>
      let ext := submitExtract doc
      if ext.1 = "" ∨ ext.2.1 = "" then
        { error := some "INVALID_RESPONSE"
          message := some "Failed to extract conversation_id or message_id from response" }
      else
        { conversation_id := some ext.1, message_id := some ext.2.1, status := some ext.2.2 }

/-! ## Query-result tool (`get_query_result_...`, lines 1143-1360) -/

/-- Caller-facing result of the query-result tool (data payload fields of
the SUCCEEDED branch are outside every claim and abstracted away). -/
structure GQRPayload where
  error : Option String := none
  message : Option String := none
  statement_id : Option String := none
  status : Option String := none
deriving Repr, DecidableEq

/-- Input validation of the query-result tool (lines 1193-1217). -/
def getQueryResultValidate (c m a : String) : Option String :=
  if c = "" ∨ m = "" ∨ a = "" then
    some "conversation_id, message_id, and attachment_id are all required"
  else if c.length < 10 then some "Invalid conversation_id format"
  else if m.length < 10 then some "Invalid message_id format"
  else if a.length < 10 then some "Invalid attachment_id format"
  else none

/-- `get_query_result_...`: validation, one transport call, statement-state
dispatch (lines 1232-1323), and the catch-all dispatch of lines 1325-1360
(the first test lowercases the exception text). -/
def getQueryResult (c m a : String) (oracle : Except String QRDoc) : GQRPayload :=
  match getQueryResultValidate c m a with
  | some msg => { error := some "INVALID_INPUT", message := some msg }
  | none =>
    match oracle with
    | .error e =>
      if hasSubstr e.toLower "not a valid query attachment" then
        { error := some "INVALID_ATTACHMENT"
          message := some "The specified attachment is not a query result attachment" }
      else if hasSubstr e "RESOURCE_NOT_FOUND" then
        { error := some "RESOURCE_NOT_FOUND"
          message := some "Conversation, message, or attachment not found. Please verify the IDs are correct." }
      else if hasSubstr e "PERMISSION_DENIED" then
        { error := some "PERMISSION_DENIED"
          message := some "Insufficient permissions to access this query result" }
      else
        { error := some "FETCH_FAILED", message := some e }
    | .ok doc =>
      match doc.statement_response with
      | none =>
        { error := some "INVALID_RESPONSE"
          message := some "No statement_response in API response" }
      | some sr =>
        let sid := sr.statement_id.getD ""
        let st := sr.state.getD "UNKNOWN"
        if st = "SUCCEEDED" then
          { statement_id := some sid, status := some st }
        else if st = "PENDING" ∨ st = "RUNNING" then
          { statement_id := some sid, status := some st
            message := some "Query execution has not completed yet" }
        else if st = "FAILED" then
          let err := sr.error.getD ⟨none, none⟩
          { error := some "QUERY_EXECUTION_FAILED"
            message := some ("Query execution failed [" ++ err.error_code.getD "UNKNOWN" ++
              "]: " ++ err.message.getD "Query execution failed")
            statement_id := some sid, status := some st }
        else if st = "CANCELLED" then
          { error := some "QUERY_CANCELLED"
            message := some "Query execution was cancelled"
            statement_id := some sid, status := some st }
        else if st = "CLOSED" then
          { error := some "QUERY_CLOSED"
            message := some "Query execution was closed. Results may no longer be available."
            statement_id := some sid, status := some st }
        else
          { error := some "UNKNOWN_STATUS"
            message := some ("Unknown query execution status: " ++ st)
            statement_id := some sid, status := some st }

/-! ## Poll-loop lemmas -/

/-- A status stream that never reaches a terminal state drives the loop to
full fuel exhaustion: exactly `fuel` additional polls are made. -/
theorem pollLoopGo_nonterminal (oracle : Nat → Except String MessageDoc) (rename : Bool)
    (h : ∀ i, ∃ d, oracle i = .ok d ∧ d.status.getD "UNKNOWN" ∉ TERMINAL_MESSAGE_STATES) :
    ∀ fuel attempts st doc, ∃ st2 doc2,
      pollLoopGo oracle rename fuel attempts st doc = .ok (attempts + fuel, st2, doc2) := by
  intro fuel
  induction fuel with
  | zero =>
    intro attempts st doc
    exact ⟨st, doc, by simp [pollLoopGo]⟩
  | succ n ih =>
    intro attempts st doc
    obtain ⟨d, hd, hnt⟩ := h attempts
    obtain ⟨st2, doc2, h2⟩ := ih (attempts + 1)
      (if rename = true ∧ d.status.getD "UNKNOWN" ∉ MESSAGE_STATUSES ∧
          d.status.getD "UNKNOWN" ∉ TERMINAL_MESSAGE_STATES then
        "UNKNOWN_" ++ d.status.getD "UNKNOWN"
       else d.status.getD "UNKNOWN") d
    refine ⟨st2, doc2, ?_⟩
    simp only [pollLoopGo, hd]
    rw [if_neg hnt, h2]
    congr 2
    omega

/-- Fixed non-terminal status document and stream, used to exhibit
timeout behaviour at concrete inputs. -/
def execDoc : MessageDoc := ⟨some "EXECUTING", none, .list []⟩

def execOracle : Nat → Except String MessageDoc := fun _ => .ok execDoc

/-- A query-result oracle that always fails (never consulted in the
scenarios it is passed to). -/
def noFetchOracle : String → Except String QRDoc := fun _ => .error "no fetch"

theorem pollLoopGo_exec (rename : Bool) :
    ∀ n attempts st doc, pollLoopGo execOracle rename (n + 1) attempts st doc =
      .ok (attempts + (n + 1), "EXECUTING", execDoc) := by
  have hterm : ¬(execDoc.status.getD "UNKNOWN" ∈ TERMINAL_MESSAGE_STATES) := by decide
  have hcond : ¬(rename = true ∧ execDoc.status.getD "UNKNOWN" ∉ MESSAGE_STATUSES ∧
      execDoc.status.getD "UNKNOWN" ∉ TERMINAL_MESSAGE_STATES) :=
    fun hc => hc.2.1 (by decide)
  intro n
  induction n with
  | zero =>
    intro attempts st doc
    rw [pollLoopGo]
    simp only [execOracle]
    rw [if_neg hterm, if_neg hcond, pollLoopGo]
    rfl
  | succ k ih =>
    intro attempts st doc
    rw [pollLoopGo]
    simp only [execOracle]
    rw [if_neg hterm, if_neg hcond, ih (attempts + 1) _ execDoc]
    have harith : attempts + 1 + (k + 1) = attempts + (k + 1 + 1) := by omega
    rw [harith]

/-- The status-call count reported in the trace equals the loop's attempt
count, for every terminal-dispatch branch of the generic tool. -/
theorem pollGenie_statusCalls (s c m : String) (w : Int) (fetch : Bool)
    (oracle : Nat → Except String MessageDoc) (qr : String → Except String QRDoc)
    (n : Nat) (st : String) (doc : MessageDoc)
    (hv : pollGenieValidate s c m = none)
    (hloop : pollLoopGo oracle false (genericBudget w) 0 "SUBMITTED" ⟨none, none, .list []⟩
      = .ok (n, st, doc)) :
    (pollGenie s c m w fetch oracle qr).2.statusCalls = n := by
  unfold pollGenie
  rw [hv]
  simp only [hloop]
  repeat' split
  all_goals rfl

/-- Same accounting for the legacy tool. -/
theorem pollLegacy_statusCalls (c m : String) (w : Int) (fetch : Bool)
    (oracle : Nat → Except String MessageDoc) (qr : String → Except String QRDoc)
    (n : Nat) (st : String) (doc : MessageDoc)
    (hv : pollLegacyValidate c m w = none)
    (hloop : pollLoopGo oracle true (legacyBudget w) 0 "SUBMITTED" ⟨none, none, .list []⟩
      = .ok (n, st, doc)) :
    (pollLegacy c m w fetch oracle qr).2.statusCalls = n := by
  unfold pollLegacy
  rw [hv]
  simp only [hloop]
  repeat' split
  all_goals rfl

/-! ## Claim C4 -/

/-- C4 (amended): with a status stream that never turns terminal, the
generic path performs exactly `max 1 (floor (maxWait / 2))` status polls
for maxWait in its [1, 300] range, while the legacy path performs
`max 1 (min (floor (maxWait / 2)) MAX_POLL_ATTEMPTS)` — its budget is
additionally capped at `MAX_POLL_ATTEMPTS = 30`. -/
theorem poll_attempt_budget (s c m : String) (w : Int)
    (oracle : Nat → Except String MessageDoc) (qr : String → Except String QRDoc)
    (hok : ∀ i, ∃ d, oracle i = .ok d ∧ d.status.getD "UNKNOWN" ∉ TERMINAL_MESSAGE_STATES) :
    (pollGenieValidate s c m = none → 1 ≤ w → w ≤ 300 →
      (pollGenie s c m w false oracle qr).2.statusCalls
        = max 1 (w.toNat / POLL_INTERVAL_SECONDS)) ∧
    (pollLegacyValidate c m w = none →
      (pollLegacy c m w false oracle qr).2.statusCalls
        = max 1 (min (w.toNat / POLL_INTERVAL_SECONDS) MAX_POLL_ATTEMPTS)) := by
  constructor
  · intro hv h1 h300
    obtain ⟨st2, doc2, hloop⟩ := pollLoopGo_nonterminal oracle false hok
      (genericBudget w) 0 "SUBMITTED" ⟨none, none, .list []⟩
    rw [Nat.zero_add] at hloop
    rw [pollGenie_statusCalls s c m w false oracle qr _ _ _ hv hloop]
    unfold genericBudget
    rw [min_eq_right h300, max_eq_right h1]
  · intro hv
    obtain ⟨st2, doc2, hloop⟩ := pollLoopGo_nonterminal oracle true hok
      (legacyBudget w) 0 "SUBMITTED" ⟨none, none, .list []⟩
    rw [Nat.zero_add] at hloop
    rw [pollLegacy_statusCalls c m w false oracle qr _ _ _ hv hloop]
    rfl

/-- Witness for `poll_attempt_budget`: a 60-second generic poll against an
always-EXECUTING stream makes exactly 30 status calls, and the legacy poll
at the same bound also makes 30. -/
theorem poll_attempt_budget_witness :
    (pollGenie "space1234567890" "conversation1" "message12345" 60 false
        execOracle noFetchOracle).2.statusCalls = 30 ∧
    (pollLegacy "conversation1" "message12345" 60 false
        execOracle noFetchOracle).2.statusCalls = 30 := by
  have h := poll_attempt_budget "space1234567890" "conversation1" "message12345" 60
    execOracle noFetchOracle
    (fun _ => ⟨execDoc, rfl, by decide⟩)
  exact ⟨by rw [h.1 (by decide) (by decide) (by decide)]; decide,
         by rw [h.2 (by decide)]; decide⟩

/-- C4 counterexample: a legacy poll with maxWait = 100 and a never-terminal
stream makes 30 status calls — the MAX_POLL_ATTEMPTS cap — not the
`max 1 (floor (100 / 2)) = 50` the claim requires of both paths. -/
theorem legacy_poll_budget_counterexample :
    (pollLegacy "conversation1" "message12345" 100 false
        execOracle noFetchOracle).2.statusCalls = 30 ∧
    max 1 ((100 : Int).toNat / POLL_INTERVAL_SECONDS) = 50 := by
  constructor
  · have hloop := pollLoopGo_exec true 29 0 "SUBMITTED" (⟨none, none, .list []⟩ : MessageDoc)
    rw [pollLegacy_statusCalls "conversation1" "message12345" 100 false
      execOracle noFetchOracle 30 "EXECUTING" execDoc (by decide)
      (by rw [show legacyBudget 100 = 29 + 1 from by decide, hloop])]
  · decide

/-! ## Claim C7 -/

/-- C7 (amended): input validation precedes any network activity in both
poll paths — a validation failure yields INVALID_INPUT with zero status
calls and zero fetches.  But the checks are weaker than claimed: the
generic path requires only a non-blank `space_id` (no minimum length),
length ≥ 10 for the two handle ids, and does NOT reject an out-of-range
maxWait (it clamps instead, so no maxWait value fails validation); the
legacy path checks the two handle ids and rejects maxWait outside
[1, 600]. -/
theorem poll_validation_gate (s c m : String) (w : Int) (fetch : Bool)
    (oracle : Nat → Except String MessageDoc) (qr : String → Except String QRDoc) :
    (∀ e, pollGenieValidate s c m = some e →
      pollGenie s c m w fetch oracle qr
        = ({ error := some "INVALID_INPUT", message := some e }, ⟨0, []⟩)) ∧
    (pollGenieValidate s c m = none ↔
      s ≠ "" ∧ pyStrip s ≠ "" ∧ c ≠ "" ∧ m ≠ "" ∧ 10 ≤ c.length ∧ 10 ≤ m.length) ∧
    (∀ e, pollLegacyValidate c m w = some e →
      pollLegacy c m w fetch oracle qr
        = ({ error := some "INVALID_INPUT", message := some e }, ⟨0, []⟩)) ∧
    (pollLegacyValidate c m w = none ↔
      c ≠ "" ∧ m ≠ "" ∧ 10 ≤ c.length ∧ 10 ≤ m.length ∧ 1 ≤ w ∧ w ≤ 600) := by
  refine ⟨?_, ?_, ?_, ?_⟩
  · intro e he
    unfold pollGenie
    rw [he]
  · unfold pollGenieValidate
    split_ifs with h1 h2 h3 h4 <;>
      constructor <;> intro hh <;> simp_all <;> omega
  · intro e he
    unfold pollLegacy
    rw [he]
  · unfold pollLegacyValidate
    split_ifs with h1 h2 h3 h4 h5 <;>
      constructor <;> intro hh <;> simp_all <;> omega

/-- Witness for `poll_validation_gate`: an empty space id is rejected as
INVALID_INPUT with zero network calls, and the validation characterizations
hold at concrete inputs. -/
theorem poll_validation_gate_witness :
    pollGenie "" "conversation1" "message12345" 60 false execOracle noFetchOracle
      = ({ error := some "INVALID_INPUT", message := some "space_id is required" }, ⟨0, []⟩) :=
  (poll_validation_gate "" "conversation1" "message12345" 60 false execOracle noFetchOracle).1
    "space_id is required" (by decide)

/-- C7 counterexample: a generic poll with a 3-character space id (shorter
than the claimed 10-minimum) and maxWait = 301 (outside the claimed [1,300]
validation range) is NOT rejected: no INVALID_INPUT is produced, 150 status
calls are made (the clamped budget), and the call returns TIMEOUT. -/
theorem poll_validation_gap_counterexample :
    (pollGenie "abc" "conversation1" "message12345" 301 false
        execOracle noFetchOracle).1.error = some "TIMEOUT" ∧
    (pollGenie "abc" "conversation1" "message12345" 301 false
        execOracle noFetchOracle).2.statusCalls = 150 ∧
    ("abc" : String).length < 10 ∧ (301 : Int) > 300 := by
  have hloop := pollLoopGo_exec false 149 0 "SUBMITTED" (⟨none, none, .list []⟩ : MessageDoc)
  have hbudget : genericBudget 301 = 149 + 1 := by decide
  refine ⟨?_, ?_, by decide, by decide⟩
  · unfold pollGenie
    rw [show pollGenieValidate "abc" "conversation1" "message12345" = none from by decide]
    simp only [hbudget, hloop]
    decide
  · rw [pollGenie_statusCalls "abc" "conversation1" "message12345" 301 false
      execOracle noFetchOracle 150 "EXECUTING" execDoc (by decide)
      (by rw [hbudget, hloop])]

/-! ## Claim C1 -/

theorem fetchResultsLoop_first_success (qr : String → Except String QRDoc)
    (q : QueryInfo) (rest : List QueryInfo) (r : FetchedResult)
    (hid : q.attachment_id ≠ "") (hf : fetchQueryResult (qr q.attachment_id) = some r) :
    fetchResultsLoop qr (q :: rest) = ([q.attachment_id], some (attachSqlDescription q r)) := by
  unfold fetchResultsLoop
  rw [if_neg hid, hf]

/-- C1 (amended): on a poll that observes COMPLETED with fetching enabled
and a non-empty extracted query collection, the fetcher is invoked for the
first query's attachment id, and WHEN that id is non-empty and its fetch
returns a result, it is the only secondary fetch of the call and the sql
and description from that first query entry are attached onto the fetched
QueryResult.  (When a fetch returns no result, or a query's attachment id
is empty, the loop moves on to later queries, so more than one secondary
fetch can occur — see the counterexample.) -/
theorem fetch_first_query_single_fetch (s c m : String) (w : Int)
    (oracle : Nat → Except String MessageDoc) (qr : String → Except String QRDoc)
    (doc : MessageDoc) (q : QueryInfo) (rest : List QueryInfo) (r : FetchedResult)
    (hv : pollGenieValidate s c m = none)
    (h0 : oracle 0 = .ok doc)
    (hst : doc.status = some "COMPLETED")
    (hq : (extractAttachments doc).queries = q :: rest)
    (hid : q.attachment_id ≠ "")
    (hf : fetchQueryResult (qr q.attachment_id) = some r) :
    pollGenie s c m w true oracle qr =
      ({ status := some "COMPLETED", poll_attempts := some 1,
         attachments := some (extractAttachments doc),
         query_result := some (attachSqlDescription q r) },
       ⟨1, [q.attachment_id]⟩) := by
  obtain ⟨k, hk⟩ : ∃ k, genericBudget w = k + 1 :=
    ⟨genericBudget w - 1, by
      have h1 : 1 ≤ genericBudget w := le_max_left _ _
      omega⟩
  have hloop : pollLoopGo oracle false (genericBudget w) 0 "SUBMITTED" ⟨none, none, .list []⟩
      = .ok (1, "COMPLETED", doc) := by
    rw [hk, pollLoopGo]
    simp only [h0, hst, Option.getD_some]
    rw [if_pos (by decide : ("COMPLETED" : String) ∈ TERMINAL_MESSAGE_STATES)]
  unfold pollGenie
  rw [hv]
  simp only [hloop]
  rw [if_neg (by decide : ¬("COMPLETED" : String) = "FAILED"),
      if_neg (by decide : ¬("COMPLETED" : String) = "CANCELLED"),
      if_neg (by decide : ¬("COMPLETED" : String) = "ERROR"),
      if_neg (by decide : ¬(("COMPLETED" : String) ∉ TERMINAL_MESSAGE_STATES))]
  rw [hq, if_pos (by simp), fetchResultsLoop_first_success qr q rest r hid hf]

/-- Concrete COMPLETED job record with one query attachment. -/
def c1Doc : MessageDoc :=
  ⟨some "COMPLETED", none, .list [.att ⟨some "attachment0001", .absent,
    .dict ⟨some "SELECT 1", some "total volume", some "stmt1", none⟩, .absent, .absent⟩]⟩

/-- Concrete SUCCEEDED statement response for that attachment. -/
def c1QrDoc : QRDoc := ⟨some ⟨some "stmt1", some "SUCCEEDED", none, none, none⟩⟩

/-- Witness for `fetch_first_query_single_fetch` at the concrete record. -/
theorem fetch_first_query_single_fetch_witness :
    pollGenie "space1234567890" "conversation1" "message12345" 60 true
        (fun _ => .ok c1Doc) (fun _ => .ok c1QrDoc) =
      ({ status := some "COMPLETED", poll_attempts := some 1,
         attachments := some (extractAttachments c1Doc),
         query_result := some (attachSqlDescription
           ⟨"SELECT 1", "total volume", "stmt1", "attachment0001", 0, false⟩
           ⟨"stmt1", "SUCCEEDED", some "", none, some [], some [], some 0, some false, none, none⟩) },
       ⟨1, ["attachment0001"]⟩) :=
  fetch_first_query_single_fetch "space1234567890" "conversation1" "message12345" 60
    (fun _ => .ok c1Doc) (fun _ => .ok c1QrDoc) c1Doc
    ⟨"SELECT 1", "total volume", "stmt1", "attachment0001", 0, false⟩ []
    ⟨"stmt1", "SUCCEEDED", some "", none, some [], some [], some 0, some false, none, none⟩
    (by decide) rfl rfl (by decide) (by decide) (by decide)

/-- Concrete COMPLETED job record with two query attachments. -/
def c1DocTwo : MessageDoc :=
  ⟨some "COMPLETED", none, .list
    [.att ⟨some "attachmentaa01", .absent,
      .dict ⟨some "SELECT a", some "first", some "stmtA", none⟩, .absent, .absent⟩,
     .att ⟨some "attachmentbb02", .absent,
      .dict ⟨some "SELECT b", some "second", some "stmtB", none⟩, .absent, .absent⟩]⟩

/-- Concrete SUCCEEDED statement response for the second attachment. -/
def c1QrDocB : QRDoc := ⟨some ⟨some "stmtB", some "SUCCEEDED", none, none, none⟩⟩

/-- C1 counterexample: when the fetch for the first query's attachment id
fails (returns no result), the loop issues a SECOND secondary fetch for
the next query — two fetches in one poll call — and the attached sql and
description come from that second query entry, refuting both the
"first query's attachment id only" and the "at most one secondary fetch
per poll call" parts of the claim. -/
theorem fetch_loop_multiple_fetches_counterexample :
    (pollGenie "space1234567890" "conversation1" "message12345" 2 true
        (fun _ => .ok c1DocTwo)
        (fun a => if a = "attachmentbb02" then .ok c1QrDocB else .error "boom")).2.fetchIds
      = ["attachmentaa01", "attachmentbb02"] ∧
    (pollGenie "space1234567890" "conversation1" "message12345" 2 true
        (fun _ => .ok c1DocTwo)
        (fun a => if a = "attachmentbb02" then .ok c1QrDocB else .error "boom")).1.query_result
      = some ⟨"stmtB", "SUCCEEDED", some "SELECT b", some "second",
              some [], some [], some 0, some false, none, none⟩ := by
  exact ⟨by decide, by decide⟩

/-! ## Claim C9 -/

/-- The closed ErrorCode enum as listed in the specification. -/
def specErrorCodes : List String :=
  ["INVALID_INPUT", "QUERY_FAILED", "POLL_FAILED", "FETCH_FAILED", "MESSAGE_FAILED",
   "MESSAGE_CANCELLED", "MESSAGE_ERROR", "TIMEOUT", "QUERY_EXECUTION_FAILED",
   "QUERY_CANCELLED", "RESOURCE_NOT_FOUND", "PERMISSION_DENIED", "UNAUTHENTICATED",
   "RESOURCE_EXHAUSTED", "SPACE_NOT_FOUND", "INVALID_RESPONSE", "INVALID_ATTACHMENT",
   "UNKNOWN_STATUS"]

/-- The codes the core operations actually emit: the specification's enum
plus QUERY_CLOSED (produced by the query-result tool on statement state
CLOSED, lines 1308-1314). -/
def allowedErrorCodes : List String := specErrorCodes ++ ["QUERY_CLOSED"]

/-- C9 (amended): every error payload returned by a core operation carries
an error code from the specification's enum EXTENDED BY QUERY_CLOSED; no
operation returns a code outside that extended set. -/
theorem error_codes_closed_set :
    (∀ s q cid oracle e, (queryGenie s q cid oracle).error = some e → e ∈ allowedErrorCodes) ∧
    (∀ q cid oracle e, (querySpaceLegacy q cid oracle).error = some e → e ∈ allowedErrorCodes) ∧
    (∀ s c m w fetch so qr e,
      (pollGenie s c m w fetch so qr).1.error = some e → e ∈ allowedErrorCodes) ∧
    (∀ c m w fetch so qr e,
      (pollLegacy c m w fetch so qr).1.error = some e → e ∈ allowedErrorCodes) ∧
    (∀ c m a oracle e, (getQueryResult c m a oracle).error = some e → e ∈ allowedErrorCodes) := by
  refine ⟨?_, ?_, ?_, ?_, ?_⟩
  · intro s q cid oracle e h
    simp only [queryGenie] at h
    repeat' split at h
    all_goals simp_all
    all_goals subst h
    all_goals decide
  · intro q cid oracle e h
    simp only [querySpaceLegacy] at h
    repeat' split at h
    all_goals simp_all
    all_goals subst h
    all_goals decide
  · intro s c m w fetch so qr e h
    simp only [pollGenie, pollGenieExceptPayload] at h
    repeat' split at h
    all_goals simp_all
    all_goals subst h
    all_goals decide
  · intro c m w fetch so qr e h
    simp only [pollLegacy] at h
    repeat' split at h
    all_goals simp_all
    all_goals subst h
    all_goals decide
  · intro c m a oracle e h
    simp only [getQueryResult] at h
    repeat' split at h
    all_goals simp_all
    all_goals subst h
    all_goals decide

/-- Witness for `error_codes_closed_set`: a blank submit yields
INVALID_INPUT, which lies in the extended enum. -/
theorem error_codes_closed_set_witness :
    ("INVALID_INPUT" : String) ∈ allowedErrorCodes :=
  error_codes_closed_set.1 "" "" none (.error "x") "INVALID_INPUT" (by decide)

/-- C9 counterexample: a query-result call whose statement state is CLOSED
returns error code QUERY_CLOSED, which is NOT in the specification's
closed enum. -/
theorem query_closed_code_counterexample :
    (getQueryResult "conversation1" "message12345" "attachment0001"
        (.ok ⟨some ⟨some "stmt1", some "CLOSED", none, none, none⟩⟩)).error
      = some "QUERY_CLOSED" ∧
    ("QUERY_CLOSED" : String) ∉ specErrorCodes := by
  exact ⟨by decide, by decide⟩

/-! ## Claim C10 -/

/-- C10: for a submit call that passes validation and receives a parsed
response, a success payload is returned iff both extracted handle ids are
non-empty — and it then carries exactly those non-empty ids; if either is
missing or empty the call returns INVALID_RESPONSE.  Holds for both the
generic and the legacy submit path. -/
theorem submit_handle_nonempty (s q : String) (cid : Option String) (doc : SubmitDoc)
    (hv1 : queryGenieValidate s q cid = none)
    (hv2 : querySpaceLegacyValidate q cid = none) :
    ((submitExtract doc).1 ≠ "" ∧ (submitExtract doc).2.1 ≠ "" →
      queryGenie s q cid (.ok doc)
        = { conversation_id := some (submitExtract doc).1,
            message_id := some (submitExtract doc).2.1,
            status := some (submitExtract doc).2.2 } ∧
      querySpaceLegacy q cid (.ok doc)
        = { conversation_id := some (submitExtract doc).1,
            message_id := some (submitExtract doc).2.1,
            status := some (submitExtract doc).2.2 }) ∧
    ((submitExtract doc).1 = "" ∨ (submitExtract doc).2.1 = "" →
      queryGenie s q cid (.ok doc)
        = { error := some "INVALID_RESPONSE",
            message := some "Failed to extract conversation_id or message_id from response" } ∧
      querySpaceLegacy q cid (.ok doc)
        = { error := some "INVALID_RESPONSE",
            message := some "Failed to extract conversation_id or message_id from response" }) := by
  constructor
  · intro hne
    have hcond : ¬((submitExtract doc).1 = "" ∨ (submitExtract doc).2.1 = "") := by
      push_neg
      exact hne
    constructor
    · simp only [queryGenie, hv1]
      rw [if_neg hcond]
    · simp only [querySpaceLegacy, hv2]
      rw [if_neg hcond]
  · intro hemp
    constructor
    · simp only [queryGenie, hv1]
      rw [if_pos hemp]
    · simp only [querySpaceLegacy, hv2]
      rw [if_pos hemp]

/-- Witness for `submit_handle_nonempty` at a concrete well-formed
response. -/
theorem submit_handle_nonempty_witness :
    queryGenie "space1234567890" "top volume stock" none
        (.ok ⟨some ⟨some "conversation9999", some "SUBMITTED"⟩, some "message99999999"⟩)
      = { conversation_id := some "conversation9999",
          message_id := some "message99999999",
          status := some "SUBMITTED" } :=
  ((submit_handle_nonempty "space1234567890" "top volume stock" none
    ⟨some ⟨some "conversation9999", some "SUBMITTED"⟩, some "message99999999"⟩
    (by decide) (by decide)).1 ⟨by decide, by decide⟩).1

end GenieMcp
